import Mathlib

/-!
Verification of the Workfront-to-Cloudinary integration tool.

This development gives a shallow embedding of the orchestration and
aggregation core of the repository — `document_processor.py` and
`main.py` — and proves the specification's claims about it.

The three fallible remote operations a document processing run performs
(`WorkfrontAPI.download_document`, `CloudinaryService.upload_file`,
`WorkfrontAPI.update_document`) and the task-level operation
(`WorkfrontAPI.update_task_status`) are modelled by an environment that
fixes the outcome of each call: success with a value, or an exception of
a given kind.  Python exception semantics are kept: the processor's
`except (WorkfrontAPIError, CloudinaryServiceError)` clause catches only
those two kinds; `except Exception` clauses catch everything except
`KeyboardInterrupt` (which in Python does not derive from `Exception`);
uncaught exceptions propagate and are represented by `Except.error`.

Filesystem effects on the per-document temporary staging file are
recorded as an event list (`create` / `remove`), and the remote calls
actually issued are recorded as a trace, so that claims about resource
cleanup and about which endpoints were contacted become statements about
computed data.
-/

set_option autoImplicit false

deriving instance DecidableEq for Except

namespace WfToCld

/-! ### Configuration (`config.py`)

The status codes are the defaults of `Config.TASK_COMPLETE` and
`Config.TASK_ERROR` in `config.py`. -/

namespace Config

def TASK_COMPLETE : String := "CPL"

def TASK_ERROR : String := "ERR"

end Config

/-! ### Exceptions

`workfrontAPIError` models `WorkfrontAPIError`, `cloudinaryServiceError`
models `CloudinaryServiceError`, `keyboardInterrupt` models Python's
`KeyboardInterrupt` (not an `Exception` subclass), and `otherException`
models any other `Exception` subclass (an unexpected fault). -/

inductive Exn where
  | workfrontAPIError
  | cloudinaryServiceError
  | keyboardInterrupt
  | otherException
  deriving DecidableEq, Repr

/-- Kinds caught by `except (WorkfrontAPIError, CloudinaryServiceError)`
in `DocumentProcessor.process_document`. -/
def Exn.caughtByProcessor : Exn → Bool
  | .workfrontAPIError => true
  | .cloudinaryServiceError => true
  | _ => false

/-- Kinds caught by a Python `except Exception` clause: everything
modelled here except `KeyboardInterrupt`. -/
def Exn.isException : Exn → Bool
  | .keyboardInterrupt => false
  | _ => true

/-- Outcome of one remote call: a returned value, or a raised exception. -/
inductive CallResult (α : Type) where
  | ok (a : α)
  | raise (e : Exn)
  deriving DecidableEq, Repr

def CallResult.isOk {α : Type} : CallResult α → Bool
  | .ok _ => true
  | .raise _ => false

def CallResult.raised {α : Type} : CallResult α → Option Exn
  | .ok _ => none
  | .raise e => some e

/-! ### Data model

A document dictionary carries `ID` (always read via `document['ID']`)
and possibly a `name` (read via `document.get('name', document_id)`).
A task dictionary carries `ID`, the `hasDocuments` flag (read via
`task.get('hasDocuments')`) and its `documents` list (read via
`task.get('documents', [])`). -/

structure Document where
  ID : String
  name : Option String
  deriving DecidableEq, Repr

structure Task where
  ID : String
  hasDocuments : Bool
  documents : List Document
  deriving DecidableEq, Repr

/-- The Cloudinary upload response dictionary, of which the processor
reads `response['secure_url']`. -/
structure UploadResponse where
  secure_url : String
  deriving DecidableEq, Repr

/-- A remote call issued during a run, as observed at the two service
clients (`workfront_api.py`, `cloudinary_service.py`). -/
inductive RemoteCall where
  | downloadDocument (documentId : String)
  | uploadFile (publicId : String) (displayName : String)
  | updateDocument (documentId : String) (description : String)
  | updateTaskStatus (taskId : String) (status : String)
  deriving DecidableEq, Repr

def RemoteCall.isTaskStatusUpdate : RemoteCall → Bool
  | .updateTaskStatus _ _ => true
  | _ => false

/-- Filesystem events on the temporary staging file of one
`process_document` run. -/
inductive FsEvent where
  | create
  | remove
  deriving DecidableEq, Repr

/-- Whether the staging file is present after the given event history
(last event wins; absent when no event occurred). -/
def tempPresent (evs : List FsEvent) : Bool :=
  evs.foldl (fun _ e => match e with | .create => true | .remove => false) false

/-- Model of `DocumentProcessor._cleanup_temp_file`: remove the file if it
exists (`if os.path.exists(file_path): os.remove(file_path)`). -/
def cleanupTempFile (evs : List FsEvent) : List FsEvent :=
  if tempPresent evs then evs ++ [FsEvent.remove] else evs

/-- Environment for one `process_document` run: the outcome of each of
the three remote calls, in program order.  An outcome is consumed only
if control reaches the corresponding call. -/
structure DocEnv where
  download : CallResult Unit
  upload : CallResult UploadResponse
  update : CallResult Unit
  deriving DecidableEq, Repr

/-- The three remote steps all succeed. -/
def DocEnv.allOk (env : DocEnv) : Bool :=
  env.download.isOk && env.upload.isOk && env.update.isOk

/-- Every exception the environment raises is one of the modelled error
types caught by the processor (`WorkfrontAPIError`,
`CloudinaryServiceError`); no unexpected fault, no interrupt. -/
def DocEnv.modeledOnly (env : DocEnv) : Bool :=
  (match env.download with | .ok _ => true | .raise e => e.caughtByProcessor) &&
  (match env.upload with | .ok _ => true | .raise e => e.caughtByProcessor) &&
  (match env.update with | .ok _ => true | .raise e => e.caughtByProcessor)

/-- The `secure_url` of the environment's upload response (only
meaningful when the upload succeeds). -/
def DocEnv.uploadUrl (env : DocEnv) : String :=
  match env.upload with
  | .ok resp => resp.secure_url
  | .raise _ => ""

/-- Everything observable about one `process_document` run: the Python
return value (or the exception that propagated), the filesystem event
history of the staging file, the remote calls issued, and the document
description updates that were durably applied (successful
`update_document` calls). -/
structure DocRun where
  result : Except Exn (Bool × String)
  fsEvents : List FsEvent
  calls : List RemoteCall
  docUpdates : List (String × String)
  deriving Repr

/-- Model of `DocumentProcessor.process_document` (document_processor.py, lines
73–116).  Steps: `_download_to_temp_file` (remote download, then the
temporary file is created and `temp_file_path` is set), Cloudinary
`upload_file` with `public_id = document['ID']` and `display_name =
document.get('name', document_id)`, then `update_document(document_id,
secure_url)`.  The `except` clause turns the two modelled error types
into `(False, Config.TASK_ERROR)`; any other exception propagates.  The
`finally` clause runs `_cleanup_temp_file` whenever `temp_file_path`
was set. -/
def process_document (doc : Document) (env : DocEnv) : DocRun :=
  let document_id := doc.ID
  let document_name := doc.name.getD document_id
  match env.download with
  | .raise e =>
      { result := if e.caughtByProcessor then Except.ok (false, Config.TASK_ERROR)
                  else Except.error e
        fsEvents := []
        calls := [RemoteCall.downloadDocument document_id]
        docUpdates := [] }
  | .ok _ =>
      let staged : List FsEvent := [FsEvent.create]
      match env.upload with
      | .raise e =>
          { result := if e.caughtByProcessor then Except.ok (false, Config.TASK_ERROR)
                      else Except.error e
            fsEvents := cleanupTempFile staged
            calls := [RemoteCall.downloadDocument document_id,
                      RemoteCall.uploadFile document_id document_name]
            docUpdates := [] }
      | .ok resp =>
          let secure_url := resp.secure_url
          match env.update with
          | .raise e =>
              { result := if e.caughtByProcessor then Except.ok (false, Config.TASK_ERROR)
                          else Except.error e
                fsEvents := cleanupTempFile staged
                calls := [RemoteCall.downloadDocument document_id,
                          RemoteCall.uploadFile document_id document_name,
                          RemoteCall.updateDocument document_id secure_url]
                docUpdates := [] }
          | .ok _ =>
              { result := Except.ok (true, Config.TASK_COMPLETE)
                fsEvents := cleanupTempFile staged
                calls := [RemoteCall.downloadDocument document_id,
                          RemoteCall.uploadFile document_id document_name,
                          RemoteCall.updateDocument document_id secure_url]
                docUpdates := [(document_id, secure_url)] }

/-- The success boolean a `process_document` run reported (`False` when
the run raised instead of returning). -/
def DocRun.succeeded (r : DocRun) : Bool :=
  match r.result with
  | Except.ok s => s.1
  | Except.error _ => false

/-- Success boolean of processing one document in one environment. -/
def docOk (doc : Document) (env : DocEnv) : Bool :=
  (process_document doc env).succeeded

/-! ### Task aggregation (`process_task_documents`)

The per-document environments of one task are given as an oracle
`Nat → DocEnv`; the i-th document processed consumes outcome `env i`. -/

/-- Oracle seen by the rest of the loop after one document was
consumed. -/
def shiftEnv (env : Nat → DocEnv) : Nat → DocEnv := fun i => env (i + 1)

/-- The `for document in documents` loop of `process_task_documents`:
run `process_document` on each document in order, collecting each run.
If a run raises (its `result` is an `error`), the exception propagates
out of the loop: later documents are not processed. -/
def processDocs : List Document → (Nat → DocEnv) → List DocRun × Option Exn
  | [], _ => ([], none)
  | d :: rest, env =>
      let run := process_document d (env 0)
      match run.result with
      | Except.error e => ([run], some e)
      | Except.ok _ =>
          let tail := processDocs rest (shiftEnv env)
          (run :: tail.1, tail.2)

/-- The per-document runs of a task when no exception interrupts the
loop: the i-th document processed with the i-th oracle outcome. -/
def mapRuns : List Document → (Nat → DocEnv) → List DocRun
  | [], _ => []
  | d :: rest, env => process_document d (env 0) :: mapRuns rest (shiftEnv env)

/-- Observable outcome of `process_task_documents`: the returned status
code (or propagated exception) together with the per-document runs that
happened. -/
structure TaskRun where
  result : Except Exn String
  runs : List DocRun
  deriving Repr

/-- All remote calls a task run issued, in order. -/
def TaskRun.remoteCalls (t : TaskRun) : List RemoteCall :=
  (t.runs.map DocRun.calls).flatten

/-- All document description updates a task run durably applied. -/
def TaskRun.docUpdates (t : TaskRun) : List (String × String) :=
  (t.runs.map DocRun.docUpdates).flatten

/-- Model of `DocumentProcessor.process_task_documents` (document_processor.py,
lines 118–157).  Empty document list: return `Config.TASK_ERROR`
immediately.  Otherwise run `process_document` per document, collect
the success booleans in `results`, and return `Config.TASK_COMPLETE`
iff `all(results)`, else `Config.TASK_ERROR`. -/
def process_task_documents (task : Task) (env : Nat → DocEnv) : TaskRun :=
  let documents := task.documents
  if documents.isEmpty then
    { result := Except.ok Config.TASK_ERROR, runs := [] }
  else
    let p := processDocs documents env
    match p.2 with
    | some e => { result := Except.error e, runs := p.1 }
    | none =>
        let results := p.1.map DocRun.succeeded
        if results.all (fun b => b) then
          { result := Except.ok Config.TASK_COMPLETE, runs := p.1 }
        else
          { result := Except.ok Config.TASK_ERROR, runs := p.1 }

/-! ### Run orchestration (`main.py`) -/

/-- The statistics dictionary of `process_tasks`. -/
structure Stats where
  total_tasks : Nat
  successful_tasks : Nat
  failed_tasks : Nat
  total_documents : Nat
  deriving DecidableEq, Repr

/-- Environment of one iteration of the `process_tasks` loop: the
per-document oracle handed to `process_task_documents`, the outcome of
the normal `update_task_status(task_id, final_status)` call, and the
outcome of the recovery `update_task_status(task_id, TASK_ERROR)` call
in the `except` clause.  Each outcome is consumed only if control
reaches that call. -/
structure TaskEnv where
  docEnv : Nat → DocEnv
  updateStatus : CallResult Unit
  updateStatusOnError : CallResult Unit

/-- Observable outcome of one iteration of the `process_tasks` loop:
how the success/failure counters moved, the remote calls issued, and
the exception (necessarily a `KeyboardInterrupt` in this model) that
escaped the iteration, if any. -/
structure TaskStep where
  succIncr : Nat
  failIncr : Nat
  calls : List RemoteCall
  escaped : Option Exn
  deriving Repr

/-- The `except Exception` clause of the `process_tasks` loop body
(main.py, lines 131–139): increment `failed_tasks`, then try
`update_task_status(task_id, Config.TASK_ERROR)`, swallowing any
`Exception` the recovery call itself raises (a `KeyboardInterrupt`
from the recovery call still escapes). -/
def recoveryStep (task : Task) (tenv : TaskEnv) (priorCalls : List RemoteCall) : TaskStep :=
  let recCalls := priorCalls ++ [RemoteCall.updateTaskStatus task.ID Config.TASK_ERROR]
  match tenv.updateStatusOnError with
  | CallResult.ok _ =>
      { succIncr := 0, failIncr := 1, calls := recCalls, escaped := none }
  | CallResult.raise e2 =>
      if e2.isException then
        { succIncr := 0, failIncr := 1, calls := recCalls, escaped := none }
      else
        { succIncr := 0, failIncr := 1, calls := recCalls, escaped := some e2 }

/-- Body of one iteration of the `for i, task in enumerate(tasks, 1)`
loop in `process_tasks` (main.py, lines 108–139).  The `try` block runs
`process_task_documents` and then `update_task_status(task_id,
final_status)`, incrementing `successful_tasks` iff the final status is
`Config.TASK_COMPLETE` and `failed_tasks` otherwise.  The
`except Exception` clause (which does not catch `KeyboardInterrupt`)
is `recoveryStep`. -/
def processOneTask (task : Task) (tenv : TaskEnv) : TaskStep :=
  let tr := process_task_documents task tenv.docEnv
  match tr.result with
  | Except.ok final_status =>
      let callsSoFar := tr.remoteCalls ++ [RemoteCall.updateTaskStatus task.ID final_status]
      match tenv.updateStatus with
      | CallResult.ok _ =>
          if final_status = Config.TASK_COMPLETE then
            { succIncr := 1, failIncr := 0, calls := callsSoFar, escaped := none }
          else
            { succIncr := 0, failIncr := 1, calls := callsSoFar, escaped := none }
      | CallResult.raise e =>
          if e.isException then recoveryStep task tenv callsSoFar
          else { succIncr := 0, failIncr := 0, calls := callsSoFar, escaped := some e }
  | Except.error e =>
      if e.isException then recoveryStep task tenv tr.remoteCalls
      else { succIncr := 0, failIncr := 0, calls := tr.remoteCalls, escaped := some e }

/-- Oracle seen by the rest of the task loop after one task was
consumed. -/
def shiftTaskEnv (env : Nat → TaskEnv) : Nat → TaskEnv := fun i => env (i + 1)

/-- The `process_tasks` loop: accumulates the `successful_tasks`,
`failed_tasks` and `total_documents` increments and the trace of remote
calls; an escaping exception aborts the loop. -/
def processTasksLoop : List Task → (Nat → TaskEnv) →
    Except Exn (Nat × Nat × Nat) × List RemoteCall
  | [], _ => (Except.ok (0, 0, 0), [])
  | t :: rest, env =>
      let step := processOneTask t (env 0)
      match step.escaped with
      | some e => (Except.error e, step.calls)
      | none =>
          let tail := processTasksLoop rest (shiftTaskEnv env)
          match tail.1 with
          | Except.error e => (Except.error e, step.calls ++ tail.2)
          | Except.ok (s, f, d) =>
              (Except.ok (step.succIncr + s, step.failIncr + f, t.documents.length + d),
               step.calls ++ tail.2)

/-- Model of `process_tasks` (main.py, lines 81–141): `total_tasks` is set to
`len(tasks)` up front; the loop accumulates the other counters.  The
returned value is the statistics dictionary, or the exception that
escaped the loop. -/
def process_tasks (tasks : List Task) (env : Nat → TaskEnv) :
    Except Exn Stats × List RemoteCall :=
  let loop := processTasksLoop tasks env
  match loop.1 with
  | Except.error e => (Except.error e, loop.2)
  | Except.ok (s, f, d) =>
      (Except.ok { total_tasks := tasks.length, successful_tasks := s,
                   failed_tasks := f, total_documents := d }, loop.2)

/-- Model of `find_tasks_for_upload` (main.py, lines 42–78): search the Task
API; on an empty result return `[]`; otherwise keep the tasks whose
`hasDocuments` flag is true.  A `WorkfrontAPIError` from the search is
caught and turned into `[]`; any other exception propagates. -/
def find_tasks_for_upload (search : CallResult (List Task)) : Except Exn (List Task) :=
  match search with
  | CallResult.ok tasks =>
      if tasks.isEmpty then Except.ok []
      else Except.ok (tasks.filter (fun t => t.hasDocuments))
  | CallResult.raise e =>
      if e = Exn.workfrontAPIError then Except.ok []
      else Except.error e

/-- Environment of one `main()` run: configuration validity, the
outcomes of service initialization and of the Workfront authentication,
the outcome of the task search, and the per-task environments. -/
structure MainEnv where
  configValid : Bool
  servicesInit : CallResult Unit
  auth : CallResult Unit
  search : CallResult (List Task)
  taskEnvs : Nat → TaskEnv

/-- The body of the `try` block of `main()` (main.py, lines 175–207):
initialize services, authenticate, find tasks; `0` when there is
nothing to process, otherwise run `process_tasks` and return `1` iff
`failed_tasks > 0`. -/
def mainBody (env : MainEnv) : Except Exn Nat :=
  match env.servicesInit with
  | CallResult.raise e => Except.error e
  | CallResult.ok _ =>
      match env.auth with
      | CallResult.raise e => Except.error e
      | CallResult.ok _ =>
          match find_tasks_for_upload env.search with
          | Except.error e => Except.error e
          | Except.ok tasks =>
              if tasks.isEmpty then Except.ok 0
              else
                match (process_tasks tasks env.taskEnvs).1 with
                | Except.error e => Except.error e
                | Except.ok stats =>
                    Except.ok (if stats.failed_tasks > 0 then 1 else 0)

/-- Model of `main()` (main.py, lines 161–215): exit `1` when configuration
validation fails; otherwise run the body, mapping a `KeyboardInterrupt`
to exit code `130` and any other escaping exception to `1`. -/
def main (env : MainEnv) : Nat :=
  if env.configValid then
    match mainBody env with
    | Except.ok code => code
    | Except.error e => if e = Exn.keyboardInterrupt then 130 else 1
  else 1

/-! ### Derived observations -/

/-- Whether a `process_document` run returned normally (as opposed to
letting an exception propagate). -/
def DocRun.returned (r : DocRun) : Bool :=
  match r.result with
  | Except.ok _ => true
  | Except.error _ => false

/-- The exception, if any, that the `try` block of one `process_tasks`
iteration raises: the one escaping `process_task_documents`, or else
the one raised by the normal `update_task_status` call. -/
def taskFault (t : Task) (tenv : TaskEnv) : Option Exn :=
  match (process_task_documents t tenv.docEnv).result with
  | Except.error e => some e
  | Except.ok _ => tenv.updateStatus.raised

/-! ### Concrete fixtures (used by witness theorems) -/

/-- A document that carries a display name. -/
def docA : Document := { ID := "docA", name := some "Document A" }

/-- A document whose dictionary lacks the `name` field. -/
def docB : Document := { ID := "docB", name := none }

/-- Environment in which all three remote steps succeed. -/
def envAllOk : DocEnv :=
  { download := CallResult.ok ()
    upload := CallResult.ok { secure_url := "https://res.cloudinary.example/ok" }
    update := CallResult.ok () }

/-- Environment in which the Cloudinary upload fails with a modelled
store error. -/
def envUploadFail : DocEnv :=
  { download := CallResult.ok ()
    upload := CallResult.raise Exn.cloudinaryServiceError
    update := CallResult.ok () }

/-- Environment in which the download fails with a modelled API error. -/
def envDownloadFail : DocEnv :=
  { download := CallResult.raise Exn.workfrontAPIError
    upload := CallResult.ok { secure_url := "https://res.cloudinary.example/x" }
    update := CallResult.ok () }

/-- Per-document oracle: the first document's upload fails, every other
document succeeds. -/
def envsFirstUploadFails : Nat → DocEnv :=
  fun i => if i = 0 then envUploadFail else envAllOk

/-- Per-document oracle: every document succeeds. -/
def envsAllOk : Nat → DocEnv := fun _ => envAllOk

/-- Task `T1` with documents `[A, B]`. -/
def taskT1 : Task := { ID := "T1", hasDocuments := true, documents := [docA, docB] }

/-- Task `T2` with documents `[A, B]` (the partial-failure scenario). -/
def taskT2 : Task := { ID := "T2", hasDocuments := true, documents := [docA, docB] }

/-- A task that carries the `hasDocuments` flag but an empty document
collection. -/
def taskEmpty : Task := { ID := "T0", hasDocuments := true, documents := [] }

/-- A task without documents (the `hasDocuments` flag is false). -/
def taskNoDocs (n : String) : Task := { ID := n, hasDocuments := false, documents := [] }

/-- Task environment in which everything succeeds. -/
def tenvAllOk : TaskEnv :=
  { docEnv := envsAllOk
    updateStatus := CallResult.ok ()
    updateStatusOnError := CallResult.ok () }

/-- Task environment in which the aggregator raises an unexpected fault
(the first document's download raises a non-modelled exception). -/
def tenvAggregatorFaults : TaskEnv :=
  { docEnv := fun _ =>
      { download := CallResult.raise Exn.otherException
        upload := CallResult.ok { secure_url := "https://res.cloudinary.example/y" }
        update := CallResult.ok () }
    updateStatus := CallResult.ok ()
    updateStatusOnError := CallResult.ok () }

/-- Per-task oracle: every task processes successfully. -/
def tenvsAllOk : Nat → TaskEnv := fun _ => tenvAllOk

/-- Per-task oracle: the first task's aggregation faults unexpectedly,
every later task succeeds. -/
def tenvsFaultFirst : Nat → TaskEnv :=
  fun i => if i = 0 then tenvAggregatorFaults else tenvAllOk

/-- Task `T3` with a single document. -/
def taskT3 : Task := { ID := "T3", hasDocuments := true, documents := [docB] }

/-- A search result of five tasks, two of which lack documents. -/
def tasksFive : List Task :=
  [taskT1, taskNoDocs "N1", taskT2, taskNoDocs "N2", taskT3]

/-- A `main()` environment for a nominal, nothing-to-do run: the search
succeeds and returns no tasks. -/
def envNothingToDo : MainEnv :=
  { configValid := true
    servicesInit := CallResult.ok ()
    auth := CallResult.ok ()
    search := CallResult.ok []
    taskEnvs := tenvsAllOk }

/-- A `main()` environment in which the task search fails with a
modelled `WorkfrontAPIError` and everything else is nominal. -/
def envSearchDown : MainEnv :=
  { configValid := true
    servicesInit := CallResult.ok ()
    auth := CallResult.ok ()
    search := CallResult.raise Exn.workfrontAPIError
    taskEnvs := tenvsAllOk }

/-- A `main()` environment in which the search returns five tasks, two
of which lack documents. -/
def envFiveTasks : MainEnv :=
  { configValid := true
    servicesInit := CallResult.ok ()
    auth := CallResult.ok ()
    search := CallResult.ok tasksFive
    taskEnvs := tenvsAllOk }

/-! ## Theorems -/

/-- A per-document run never leaves the staging file behind: helper
case analysis giving the exact filesystem history of each path. -/
theorem process_document_fsEvents (doc : Document) (env : DocEnv) :
    (process_document doc env).fsEvents = [] ∨
    (process_document doc env).fsEvents = [FsEvent.create, FsEvent.remove] := by
  obtain ⟨dl, ul, up⟩ := env
  cases dl <;> cases ul <;> cases up <;> simp [process_document, cleanupTempFile, tempPresent]

/-- Claim C2: For every document and every outcome of the three
processing steps — success, a modelled remote-call failure at any step,
or an unexpected fault at any step — the temporary staging file created
during `process_document` is absent from the filesystem after
`process_document` returns (or propagates an exception). -/
theorem c2_temp_file_always_cleaned (doc : Document) (env : DocEnv) :
    tempPresent (process_document doc env).fsEvents = false := by
  obtain ⟨dl, ul, up⟩ := env
  cases dl <;> cases ul <;> cases up <;> rfl

/-- Claim C3: When each of the three steps either succeeds or raises one
of the modelled error types, `process_document` returns normally:
`(true, Config.TASK_COMPLETE)` when all three steps succeed and
`(false, Config.TASK_ERROR)` when any step failed; no exception
propagates out of `process_document`. -/
theorem c3_processor_boundary (doc : Document) (env : DocEnv)
    (h : env.modeledOnly = true) :
    (process_document doc env).result =
      if env.allOk then Except.ok (true, Config.TASK_COMPLETE)
      else Except.ok (false, Config.TASK_ERROR) := by
  obtain ⟨dl, ul, up⟩ := env
  cases dl <;> cases ul <;> cases up <;>
    simp_all [process_document, DocEnv.modeledOnly, DocEnv.allOk, CallResult.isOk,
      Exn.caughtByProcessor]

/-- Witness for C3 at a concrete input: a fully successful environment
is modelled-only, and the run reports `(true, Config.TASK_COMPLETE)`. -/
theorem c3_processor_boundary_witness :
    envAllOk.modeledOnly = true ∧
    (process_document docA envAllOk).result = Except.ok (true, Config.TASK_COMPLETE) := by
  refine ⟨by decide, ?_⟩
  rw [c3_processor_boundary docA envAllOk (by decide)]
  decide

/-- Claim C7: A task whose document collection is empty is classified
`Config.TASK_ERROR` immediately, and no remote call is issued: neither
the Asset Store nor any Task API endpoint is contacted. -/
theorem c7_empty_task_no_remote_calls (task : Task) (env : Nat → DocEnv)
    (h : task.documents = []) :
    (process_task_documents task env).result = Except.ok Config.TASK_ERROR ∧
    (process_task_documents task env).remoteCalls = [] := by
  constructor <;> simp [process_task_documents, h, TaskRun.remoteCalls]

/-- Witness for C7 at a concrete input: the empty-collection task. -/
theorem c7_empty_task_no_remote_calls_witness :
    taskEmpty.documents = [] ∧
    (process_task_documents taskEmpty envsAllOk).result = Except.ok Config.TASK_ERROR ∧
    (process_task_documents taskEmpty envsAllOk).remoteCalls = [] := by
  refine ⟨rfl, ?_, ?_⟩
  · exact (c7_empty_task_no_remote_calls taskEmpty envsAllOk rfl).1
  · exact (c7_empty_task_no_remote_calls taskEmpty envsAllOk rfl).2

/-- Claim C10: For a document dictionary lacking the `name` field (and a
download that succeeds, so that control reaches the upload), the upload
is attempted with the document identifier as display name: the asset's
human-readable label equals the object key. -/
theorem c10_missing_name_defaults_to_id (doc : Document) (env : DocEnv)
    (h1 : doc.name = none) (h2 : env.download = CallResult.ok ()) :
    RemoteCall.uploadFile doc.ID doc.ID ∈ (process_document doc env).calls := by
  obtain ⟨dl, ul, up⟩ := env
  cases dl with
  | raise e => exact absurd h2 (by simp)
  | ok u =>
    cases ul <;> cases up <;> simp [process_document, h1]

/-- Witness for C10 at a concrete input: `docB` lacks a name; the
upload call uses `"docB"` both as object key and as display name. -/
theorem c10_missing_name_defaults_to_id_witness :
    docB.name = none ∧
    RemoteCall.uploadFile "docB" "docB" ∈ (process_document docB envAllOk).calls :=
  ⟨rfl, c10_missing_name_defaults_to_id docB envAllOk rfl rfl⟩

/-- When every per-document run returns normally, the document loop
completes without a propagating exception and its runs are exactly the
per-document runs in order. -/
theorem processDocs_eq_mapRuns (docs : List Document) (env : Nat → DocEnv)
    (h : ∀ i (hi : i < docs.length),
        (process_document (docs.get ⟨i, hi⟩) (env i)).returned = true) :
    processDocs docs env = (mapRuns docs env, none) := by
  induction docs generalizing env with
  | nil => rfl
  | cons d rest ih =>
      have h0 : (process_document d (env 0)).returned = true := h 0 (by simp)
      have hrest := ih (shiftEnv env) (fun i hi => h (i + 1) (Nat.succ_lt_succ hi))
      simp only [processDocs, mapRuns]
      cases hres : (process_document d (env 0)).result with
      | error e => simp [DocRun.returned, hres] at h0
      | ok v => simp [hrest]

/-- The boolean `all(results)` of the document loop equals the
conjunction of the per-document success booleans. -/
theorem mapRuns_all_succeeded (docs : List Document) (env : Nat → DocEnv) :
    ((mapRuns docs env).map DocRun.succeeded).all (fun b => b) = true ↔
      ∀ i (hi : i < docs.length), docOk (docs.get ⟨i, hi⟩) (env i) = true := by
  induction docs generalizing env with
  | nil =>
      exact ⟨fun _ i hi => absurd hi (by simp), fun _ => rfl⟩
  | cons d rest ih =>
      simp only [mapRuns, List.map_cons, List.all_cons, Bool.and_eq_true]
      constructor
      · rintro ⟨h0, htail⟩ i hi
        cases i with
        | zero => exact h0
        | succ j => exact (ih (shiftEnv env)).mp htail j (Nat.lt_of_succ_lt_succ hi)
      · intro hall
        refine ⟨hall 0 (Nat.succ_pos _), (ih (shiftEnv env)).mpr ?_⟩
        intro j hj
        exact hall (j + 1) (Nat.succ_lt_succ hj)

/-- Each per-document run belongs to the list of runs of the loop. -/
theorem mapRuns_mem (docs : List Document) (env : Nat → DocEnv) (i : Nat)
    (hi : i < docs.length) :
    process_document (docs.get ⟨i, hi⟩) (env i) ∈ mapRuns docs env := by
  induction docs generalizing env i with
  | nil => exact absurd hi (by simp)
  | cons d rest ih =>
      cases i with
      | zero => exact List.mem_cons_self _ _
      | succ j => exact List.mem_cons_of_mem _ (ih (shiftEnv env) j (Nat.lt_of_succ_lt_succ hi))

/-- Closed form of `process_task_documents` on a non-empty document
list when every per-document run returns normally. -/
theorem process_task_documents_of_returned (task : Task) (env : Nat → DocEnv)
    (hne : task.documents ≠ [])
    (h : ∀ i (hi : i < task.documents.length),
        (process_document (task.documents.get ⟨i, hi⟩) (env i)).returned = true) :
    process_task_documents task env =
      { result := Except.ok
          (if ((mapRuns task.documents env).map DocRun.succeeded).all (fun b => b)
           then Config.TASK_COMPLETE else Config.TASK_ERROR),
        runs := mapRuns task.documents env } := by
  have hmap := processDocs_eq_mapRuns task.documents env h
  have hempty : task.documents.isEmpty = false := by
    cases hd : task.documents with
    | nil => exact absurd hd hne
    | cons a l => rfl
  simp only [process_task_documents, hempty, Bool.false_eq_true, if_false, hmap]
  cases hall : ((mapRuns task.documents env).map DocRun.succeeded).all (fun b => b) <;>
    simp [hall]

/-- Claim C1: For a task with a non-empty document list, when every
per-document call returns normally, the Task Aggregator returns
`Config.TASK_COMPLETE` iff every per-document call reported success,
and `Config.TASK_ERROR` iff at least one document failed: the final
status is the logical AND over all document outcomes. -/
theorem c1_all_or_nothing_aggregation (task : Task) (env : Nat → DocEnv)
    (hne : task.documents ≠ [])
    (h : ∀ i (hi : i < task.documents.length),
        (process_document (task.documents.get ⟨i, hi⟩) (env i)).returned = true) :
    ((process_task_documents task env).result = Except.ok Config.TASK_COMPLETE ↔
        ∀ i (hi : i < task.documents.length),
          docOk (task.documents.get ⟨i, hi⟩) (env i) = true) ∧
    ((process_task_documents task env).result = Except.ok Config.TASK_ERROR ↔
        ∃ i, ∃ hi : i < task.documents.length,
          docOk (task.documents.get ⟨i, hi⟩) (env i) = false) := by
  rw [process_task_documents_of_returned task env hne h]
  cases hall : ((mapRuns task.documents env).map DocRun.succeeded).all (fun b => b) with
  | true =>
      constructor
      · refine ⟨fun _ => (mapRuns_all_succeeded task.documents env).mp hall, fun _ => by simp⟩
      · constructor
        · intro hcontra
          exact absurd hcontra (by simp [Config.TASK_COMPLETE, Config.TASK_ERROR])
        · rintro ⟨i, hi, hfalse⟩
          have htrue := (mapRuns_all_succeeded task.documents env).mp hall i hi
          rw [htrue] at hfalse
          exact absurd hfalse (by simp)
  | false =>
      constructor
      · constructor
        · intro hcontra
          exact absurd hcontra (by simp [Config.TASK_COMPLETE, Config.TASK_ERROR])
        · intro hall2
          have := (mapRuns_all_succeeded task.documents env).mpr hall2
          rw [this] at hall
          exact absurd hall (by simp)
      · refine ⟨fun _ => ?_, fun _ => by simp⟩
        have hnall : ¬ ∀ i (hi : i < task.documents.length),
            docOk (task.documents.get ⟨i, hi⟩) (env i) = true := by
          intro hforall
          have := (mapRuns_all_succeeded task.documents env).mpr hforall
          rw [this] at hall
          exact absurd hall (by simp)
        simpa only [not_forall, Bool.not_eq_true] using hnall

/-- Witness for C1 at concrete inputs: with both documents succeeding
the task returns `Config.TASK_COMPLETE`; with the first document's
upload failing it returns `Config.TASK_ERROR`. -/
theorem c1_all_or_nothing_aggregation_witness :
    (process_task_documents taskT1 envsAllOk).result = Except.ok Config.TASK_COMPLETE ∧
    (process_task_documents taskT2 envsFirstUploadFails).result = Except.ok Config.TASK_ERROR := by
  constructor
  · exact (c1_all_or_nothing_aggregation taskT1 envsAllOk (by decide) (by decide)).1.mpr
      (by decide)
  · exact (c1_all_or_nothing_aggregation taskT2 envsFirstUploadFails (by decide)
      (by decide)).2.mpr ⟨0, by decide, by decide⟩

/-- Per-document frame lemma: a `update_document` call is issued only
when the upload call succeeded. -/
theorem updateDocument_call_requires_upload (doc : Document) (env : DocEnv) (d u : String)
    (hmem : RemoteCall.updateDocument d u ∈ (process_document doc env).calls) :
    env.upload.isOk = true := by
  obtain ⟨dl, ul, up⟩ := env
  cases dl <;> cases ul <;> cases up <;> simp_all [process_document, CallResult.isOk]

/-- Per-document frame lemma: when the upload fails, the document's
description field is never durably updated. -/
theorem docUpdates_empty_of_upload_fail (doc : Document) (env : DocEnv)
    (h : env.upload.isOk = false) :
    (process_document doc env).docUpdates = [] := by
  obtain ⟨dl, ul, up⟩ := env
  cases dl <;> cases ul <;> cases up <;> simp_all [process_document, CallResult.isOk]

/-- Per-document lemma: a fully successful run durably writes exactly
the returned secure URL into the document's description. -/
theorem docUpdates_of_allOk (doc : Document) (env : DocEnv) (h : env.allOk = true) :
    (process_document doc env).docUpdates = [(doc.ID, env.uploadUrl)] := by
  obtain ⟨dl, ul, up⟩ := env
  cases dl <;> cases ul <;> cases up <;>
    simp_all [process_document, DocEnv.allOk, DocEnv.uploadUrl, CallResult.isOk]

/-- Claim C5: For every document of a task (when every per-document call
returns normally): the Task API document-update call is issued only
after that document's upload succeeded; if the upload fails, that
document's description field is left unchanged; and a sibling document
whose three steps all succeeded still has its description durably set
to its secure URL within the same task run (no rollback). -/
theorem c5_update_after_upload_no_rollback (task : Task) (env : Nat → DocEnv)
    (h : ∀ i (hi : i < task.documents.length),
        (process_document (task.documents.get ⟨i, hi⟩) (env i)).returned = true) :
    ∀ i (hi : i < task.documents.length),
      (∀ d u, RemoteCall.updateDocument d u ∈
          (process_document (task.documents.get ⟨i, hi⟩) (env i)).calls →
          (env i).upload.isOk = true) ∧
      ((env i).upload.isOk = false →
          (process_document (task.documents.get ⟨i, hi⟩) (env i)).docUpdates = []) ∧
      ((env i).allOk = true →
          ((task.documents.get ⟨i, hi⟩).ID, (env i).uploadUrl) ∈
            (process_task_documents task env).docUpdates) := by
  intro i hi
  refine ⟨fun d u hmem => updateDocument_call_requires_upload _ _ d u hmem,
          fun hfail => docUpdates_empty_of_upload_fail _ _ hfail,
          fun hok => ?_⟩
  have hne : task.documents ≠ [] := by
    intro h0
    rw [h0] at hi
    exact absurd hi (by simp)
  rw [process_task_documents_of_returned task env hne h]
  have hrunmem := mapRuns_mem task.documents env i hi
  have hupd := docUpdates_of_allOk (task.documents.get ⟨i, hi⟩) (env i) hok
  simp only [TaskRun.docUpdates, List.mem_flatten]
  refine ⟨(process_document (task.documents.get ⟨i, hi⟩) (env i)).docUpdates,
          List.mem_map_of_mem _ hrunmem, ?_⟩
  rw [hupd]
  exact List.mem_singleton.mpr rfl

/-- Witness for C5 at concrete inputs (the `T2` scenario): document A's
upload fails, so its description is unchanged; sibling document B
succeeded and its description is durably set — no rollback. -/
theorem c5_update_after_upload_no_rollback_witness :
    (process_document docA (envsFirstUploadFails 0)).docUpdates = [] ∧
    ("docB", "https://res.cloudinary.example/ok") ∈
      (process_task_documents taskT2 envsFirstUploadFails).docUpdates := by
  constructor
  · exact ((c5_update_after_upload_no_rollback taskT2 envsFirstUploadFails (by decide)
      0 (by decide)).2.1) (by decide)
  · exact ((c5_update_after_upload_no_rollback taskT2 envsFirstUploadFails (by decide)
      1 (by decide)).2.2) (by decide)

/-- Each completed iteration of the task loop increments exactly one of
the two counters `successful_tasks` / `failed_tasks`. -/
theorem processOneTask_incr (t : Task) (tenv : TaskEnv)
    (h : (processOneTask t tenv).escaped = none) :
    (processOneTask t tenv).succIncr + (processOneTask t tenv).failIncr = 1 := by
  revert h
  simp only [processOneTask, recoveryStep]
  cases (process_task_documents t tenv.docEnv).result with
  | ok st =>
      cases tenv.updateStatus with
      | ok u => by_cases hst : st = Config.TASK_COMPLETE <;> simp [hst]
      | raise e =>
          cases he : e.isException with
          | true =>
              cases tenv.updateStatusOnError with
              | ok u => simp [he]
              | raise e2 => cases he2 : e2.isException <;> simp [he, he2]
          | false => simp [he]
  | error e =>
      cases he : e.isException with
      | true =>
          cases tenv.updateStatusOnError with
          | ok u => simp [he]
          | raise e2 => cases he2 : e2.isException <;> simp [he, he2]
      | false => simp [he]

/-- When the task loop completes, the accumulated success and failure
counters sum to the number of input tasks. -/
theorem processTasksLoop_counts (tasks : List Task) (env : Nat → TaskEnv)
    (s f d : Nat) (h : (processTasksLoop tasks env).1 = Except.ok (s, f, d)) :
    s + f = tasks.length := by
  induction tasks generalizing env s f d with
  | nil =>
      simp only [processTasksLoop, Except.ok.injEq, Prod.mk.injEq] at h
      obtain ⟨hs, hf, hd⟩ := h
      simp only [List.length_nil]
      omega
  | cons t rest ih =>
      cases hesc : (processOneTask t (env 0)).escaped with
      | some e => simp [processTasksLoop, hesc] at h
      | none =>
          cases hloop : (processTasksLoop rest (shiftTaskEnv env)).1 with
          | error e => simp [processTasksLoop, hesc, hloop] at h
          | ok trip =>
              obtain ⟨s2, f2, d2⟩ := trip
              simp only [processTasksLoop, hesc, hloop, Except.ok.injEq, Prod.mk.injEq] at h
              have hstep := processOneTask_incr t (env 0) hesc
              have htail := ih (shiftTaskEnv env) s2 f2 d2 hloop
              obtain ⟨hs, hf, hd⟩ := h
              simp only [List.length_cons]
              omega

/-- Claim C9: When `process_tasks` returns, its statistics satisfy
`successful_tasks + failed_tasks = total_tasks = length of the input
list`: each loop iteration increments exactly one of the two counters,
including the branch where an unexpected fault is caught. -/
theorem c9_stats_partition (tasks : List Task) (env : Nat → TaskEnv) (stats : Stats)
    (h : (process_tasks tasks env).1 = Except.ok stats) :
    stats.successful_tasks + stats.failed_tasks = stats.total_tasks ∧
    stats.total_tasks = tasks.length := by
  cases hloop : (processTasksLoop tasks env).1 with
  | error e => simp [process_tasks, hloop] at h
  | ok trip =>
      obtain ⟨s, f, d⟩ := trip
      simp only [process_tasks, hloop] at h
      have hcounts := processTasksLoop_counts tasks env s f d hloop
      obtain rfl := (Except.ok.injEq .. ▸ h)
      exact ⟨hcounts, rfl⟩

/-- Witness for C9 at concrete inputs: two tasks, both succeeding, one
task with an unexpected fault counted as failed. -/
theorem c9_stats_partition_witness :
    ({ total_tasks := 2, successful_tasks := 1, failed_tasks := 1,
       total_documents := 4 } : Stats).successful_tasks +
      ({ total_tasks := 2, successful_tasks := 1, failed_tasks := 1,
         total_documents := 4 } : Stats).failed_tasks =
      ({ total_tasks := 2, successful_tasks := 1, failed_tasks := 1,
         total_documents := 4 } : Stats).total_tasks ∧
    ({ total_tasks := 2, successful_tasks := 1, failed_tasks := 1,
       total_documents := 4 } : Stats).total_tasks = [taskT1, taskT2].length :=
  c9_stats_partition [taskT1, taskT2] tenvsFaultFirst
    { total_tasks := 2, successful_tasks := 1, failed_tasks := 1, total_documents := 4 }
    (by decide)

/-- When the `try` block of a task iteration raises a non-interrupt
exception and the recovery status update is not interrupted, the
iteration swallows the fault: it counts the task as failed, issues the
recovery `update_task_status(task_id, Config.TASK_ERROR)` call, and
lets no exception escape. -/
theorem processOneTask_fault (t : Task) (tenv : TaskEnv) (e : Exn)
    (hf : taskFault t tenv = some e) (he : e.isException = true)
    (hrec : tenv.updateStatusOnError ≠ CallResult.raise Exn.keyboardInterrupt) :
    (processOneTask t tenv).succIncr = 0 ∧
    (processOneTask t tenv).failIncr = 1 ∧
    (processOneTask t tenv).escaped = none ∧
    RemoteCall.updateTaskStatus t.ID Config.TASK_ERROR ∈ (processOneTask t tenv).calls := by
  unfold taskFault at hf
  simp only [processOneTask, recoveryStep]
  cases hres : (process_task_documents t tenv.docEnv).result with
  | error e2 =>
      rw [hres] at hf
      injection hf with hf2
      subst hf2
      simp only [he, if_true]
      cases hrecv : tenv.updateStatusOnError with
      | ok u => simp
      | raise e3 =>
          cases he3 : e3.isException with
          | true => simp [he3]
          | false =>
              have hki : e3 = Exn.keyboardInterrupt := by
                cases e3 <;> simp_all [Exn.isException]
              subst hki
              exact absurd hrecv hrec
  | ok st =>
      rw [hres] at hf
      cases hupd : tenv.updateStatus with
      | ok u => rw [hupd] at hf; simp [CallResult.raised] at hf
      | raise e2 =>
          rw [hupd] at hf
          simp only [CallResult.raised, Option.some.injEq] at hf
          subst hf
          simp only [he, if_true]
          cases hrecv : tenv.updateStatusOnError with
          | ok u => simp
          | raise e3 =>
              cases he3 : e3.isException with
              | true => simp [he3]
              | false =>
                  have hki : e3 = Exn.keyboardInterrupt := by
                    cases e3 <;> simp_all [Exn.isException]
                  subst hki
                  exact absurd hrecv hrec

/-- Claim C6: If a task's aggregation or its status update raises an
unexpected (non-interrupt) fault, and the recovery update is not
externally interrupted, the orchestrator counts that task as failed,
issues the recovery `update_task_status(task_id, Config.TASK_ERROR)`
call, and continues with the remaining tasks: the run over `t :: rest`
completes exactly like the run over `rest`, with one more failed task
and `t`'s documents added to the totals. -/
theorem c6_task_fault_contained (t : Task) (rest : List Task) (env : Nat → TaskEnv)
    (e : Exn) (hf : taskFault t (env 0) = some e) (he : e.isException = true)
    (hrec : (env 0).updateStatusOnError ≠ CallResult.raise Exn.keyboardInterrupt) :
    (processOneTask t (env 0)).failIncr = 1 ∧
    RemoteCall.updateTaskStatus t.ID Config.TASK_ERROR ∈ (processOneTask t (env 0)).calls ∧
    (process_tasks (t :: rest) env).1 =
      (match (process_tasks rest (shiftTaskEnv env)).1 with
       | Except.ok stats => Except.ok
           { total_tasks := stats.total_tasks + 1,
             successful_tasks := stats.successful_tasks,
             failed_tasks := stats.failed_tasks + 1,
             total_documents := stats.total_documents + t.documents.length }
       | Except.error e2 => Except.error e2) := by
  obtain ⟨hsucc, hfail, hesc, hmem⟩ := processOneTask_fault t (env 0) e hf he hrec
  refine ⟨hfail, hmem, ?_⟩
  cases hloop : (processTasksLoop rest (shiftTaskEnv env)).1 with
  | error e2 =>
      simp [process_tasks, processTasksLoop, hesc, hloop]
  | ok trip =>
      obtain ⟨s2, f2, d2⟩ := trip
      simp [process_tasks, processTasksLoop, hesc, hloop, hsucc, hfail, Nat.add_comm]

/-- Witness for C6 at concrete inputs: the first task's aggregation
faults with an unexpected exception; the second task still processes
and the run completes with one failed and one successful task. -/
theorem c6_task_fault_contained_witness :
    (processOneTask taskT1 (tenvsFaultFirst 0)).failIncr = 1 ∧
    RemoteCall.updateTaskStatus "T1" Config.TASK_ERROR ∈
      (processOneTask taskT1 (tenvsFaultFirst 0)).calls ∧
    (process_tasks [taskT1, taskT2] tenvsFaultFirst).1 = Except.ok
      { total_tasks := 2, successful_tasks := 1, failed_tasks := 1,
        total_documents := 4 } := by
  have h := c6_task_fault_contained taskT1 [taskT2] tenvsFaultFirst Exn.otherException
    (by decide) (by decide) (by decide)
  refine ⟨h.1, h.2.1, ?_⟩
  rw [h.2.2]
  decide

/-- Document processing issues no task-status update: all calls of a
`process_document` run target the download, upload, or document-update
endpoints. -/
theorem process_document_calls_kinds (doc : Document) (env : DocEnv) (c : RemoteCall)
    (hc : c ∈ (process_document doc env).calls) :
    c.isTaskStatusUpdate = false := by
  cases c with
  | updateTaskStatus id st =>
      exfalso
      obtain ⟨dl, ul, up⟩ := env
      cases dl <;> cases ul <;> cases up <;> simp [process_document] at hc
  | downloadDocument i => rfl
  | uploadFile a b => rfl
  | updateDocument a b => rfl

/-- Every run collected by the document loop is a `process_document`
run, so its calls issue no task-status update. -/
theorem processDocs_calls_kinds (docs : List Document) (env : Nat → DocEnv) (run : DocRun)
    (hrun : run ∈ (processDocs docs env).1) (c : RemoteCall) (hc : c ∈ run.calls) :
    c.isTaskStatusUpdate = false := by
  induction docs generalizing env with
  | nil => simp [processDocs] at hrun
  | cons d rest ih =>
      simp only [processDocs] at hrun
      cases hres : (process_document d (env 0)).result with
      | error e =>
          rw [hres] at hrun
          simp only [List.mem_singleton] at hrun
          subst hrun
          exact process_document_calls_kinds d (env 0) c hc
      | ok v =>
          rw [hres] at hrun
          simp only [List.mem_cons] at hrun
          rcases hrun with rfl | hrun2
          · exact process_document_calls_kinds d (env 0) c hc
          · exact ih (shiftEnv env) hrun2

/-- The runs reported by `process_task_documents` are the runs of its
document loop. -/
theorem process_task_documents_runs_sub (task : Task) (denv : Nat → DocEnv) (run : DocRun)
    (h : run ∈ (process_task_documents task denv).runs) :
    run ∈ (processDocs task.documents denv).1 := by
  simp only [process_task_documents] at h
  by_cases hemp : task.documents.isEmpty = true
  · simp [hemp] at h
  · simp only [hemp, if_false] at h
    cases hsnd : (processDocs task.documents denv).2 with
    | some e => rw [hsnd] at h; exact h
    | none =>
        rw [hsnd] at h
        cases hall : ((processDocs task.documents denv).1.map DocRun.succeeded).all
            (fun b => b) with
        | true => rw [hall] at h; simp at h; exact h
        | false => rw [hall] at h; simp at h; exact h

/-- The Task Aggregator itself issues no task-status update. -/
theorem taskRun_calls_kinds (task : Task) (denv : Nat → DocEnv) (c : RemoteCall)
    (hc : c ∈ (process_task_documents task denv).remoteCalls) :
    c.isTaskStatusUpdate = false := by
  simp only [TaskRun.remoteCalls, List.mem_flatten] at hc
  obtain ⟨l, hl, hcl⟩ := hc
  simp only [List.mem_map] at hl
  obtain ⟨run, hrun, rfl⟩ := hl
  exact processDocs_calls_kinds task.documents denv run
    (process_task_documents_runs_sub task denv run hrun) c hcl

/-- Every call one task iteration issues is either a per-document call
(no task-status update) or a task-status update targeting that task's
identifier. -/
theorem processOneTask_calls_shape (t : Task) (tenv : TaskEnv) (c : RemoteCall)
    (hc : c ∈ (processOneTask t tenv).calls) :
    c.isTaskStatusUpdate = false ∨ ∃ s, c = RemoteCall.updateTaskStatus t.ID s := by
  simp only [processOneTask, recoveryStep] at hc
  repeat' split at hc
  all_goals try simp only [List.append_assoc, List.mem_append, List.mem_singleton] at hc
  all_goals
    first
    | (rcases hc with hc | rfl | rfl
       · exact Or.inl (taskRun_calls_kinds t tenv.docEnv c hc)
       · exact Or.inr ⟨_, rfl⟩
       · exact Or.inr ⟨_, rfl⟩)
    | (rcases hc with hc | rfl
       · exact Or.inl (taskRun_calls_kinds t tenv.docEnv c hc)
       · exact Or.inr ⟨_, rfl⟩)
    | exact Or.inl (taskRun_calls_kinds t tenv.docEnv c hc)

/-- Any task-status update issued during one task iteration targets
that task's identifier. -/
theorem processOneTask_taskStatus_calls (t : Task) (tenv : TaskEnv) (id st : String)
    (h : RemoteCall.updateTaskStatus id st ∈ (processOneTask t tenv).calls) :
    id = t.ID := by
  rcases processOneTask_calls_shape t tenv _ h with h1 | ⟨s, hs⟩
  · simp [RemoteCall.isTaskStatusUpdate] at h1
  · injection hs with h1 h2

/-- The remote-call trace of `process_tasks` is the trace of its loop. -/
theorem process_tasks_trace (tasks : List Task) (env : Nat → TaskEnv) :
    (process_tasks tasks env).2 = (processTasksLoop tasks env).2 := by
  cases hloop : (processTasksLoop tasks env).1 with
  | error e => simp [process_tasks, hloop]
  | ok trip => obtain ⟨s, f, d⟩ := trip; simp [process_tasks, hloop]

/-- Any task-status update issued by the task loop targets the
identifier of one of the input tasks. -/
theorem processTasksLoop_taskStatus_calls (tasks : List Task) (env : Nat → TaskEnv)
    (id st : String)
    (h : RemoteCall.updateTaskStatus id st ∈ (processTasksLoop tasks env).2) :
    id ∈ tasks.map Task.ID := by
  induction tasks generalizing env with
  | nil => simp [processTasksLoop] at h
  | cons t rest ih =>
      simp only [processTasksLoop] at h
      cases hesc : (processOneTask t (env 0)).escaped with
      | some e =>
          rw [hesc] at h
          have := processOneTask_taskStatus_calls t (env 0) id st h
          simp [this]
      | none =>
          rw [hesc] at h
          cases hloop : (processTasksLoop rest (shiftTaskEnv env)).1 with
          | error e =>
              rw [hloop] at h
              simp only [List.mem_append] at h
              rcases h with h1 | h1
              · have := processOneTask_taskStatus_calls t (env 0) id st h1
                simp [this]
              · simp only [List.map_cons, List.mem_cons]
                exact Or.inr (ih (shiftTaskEnv env) h1)
          | ok trip =>
              obtain ⟨s, f, d⟩ := trip
              rw [hloop] at h
              simp only [List.mem_append] at h
              rcases h with h1 | h1
              · have := processOneTask_taskStatus_calls t (env 0) id st h1
                simp [this]
              · simp only [List.map_cons, List.mem_cons]
                exact Or.inr (ih (shiftTaskEnv env) h1)

/-- Claim C8: Exactly the tasks whose `hasDocuments` flag is true are
passed on to per-task processing: the search filter keeps them and only
them, the run statistics field `total_tasks` equals their number, and
every task-status update issued during processing targets one of them —
a task without the flag never receives a status update. -/
theorem c8_has_documents_filter (tasks : List Task) (env : Nat → TaskEnv) :
    find_tasks_for_upload (CallResult.ok tasks) =
      Except.ok (tasks.filter (fun t => t.hasDocuments)) ∧
    (∀ stats,
        (process_tasks (tasks.filter (fun t => t.hasDocuments)) env).1 = Except.ok stats →
        stats.total_tasks = (tasks.filter (fun t => t.hasDocuments)).length) ∧
    (∀ id st, RemoteCall.updateTaskStatus id st ∈
        (process_tasks (tasks.filter (fun t => t.hasDocuments)) env).2 →
        id ∈ (tasks.filter (fun t => t.hasDocuments)).map Task.ID) := by
  refine ⟨?_, ?_, ?_⟩
  · cases tasks with
    | nil => rfl
    | cons t ts => rfl
  · intro stats h
    cases hloop : (processTasksLoop (tasks.filter (fun t => t.hasDocuments)) env).1 with
    | error e => simp [process_tasks, hloop] at h
    | ok trip =>
        obtain ⟨s, f, d⟩ := trip
        simp only [process_tasks, hloop] at h
        obtain rfl := (Except.ok.injEq .. ▸ h)
        rfl
  · intro id st h
    rw [process_tasks_trace] at h
    exact processTasksLoop_taskStatus_calls _ env id st h

/-- Witness for C8 at concrete inputs: of five searched tasks two lack
documents; exactly `T1`, `T2`, `T3` are kept, `total_tasks = 3`, and a
status update observed in the trace targets a kept task. -/
theorem c8_has_documents_filter_witness :
    find_tasks_for_upload (CallResult.ok tasksFive) =
      Except.ok (tasksFive.filter (fun t => t.hasDocuments)) ∧
    ({ total_tasks := 3, successful_tasks := 3, failed_tasks := 0,
       total_documents := 5 } : Stats).total_tasks =
      (tasksFive.filter (fun t => t.hasDocuments)).length ∧
    "T1" ∈ (tasksFive.filter (fun t => t.hasDocuments)).map Task.ID := by
  have h := c8_has_documents_filter tasksFive tenvsAllOk
  refine ⟨h.1, ?_, ?_⟩
  · exact h.2.1 _ (by decide)
  · exact h.2.2 "T1" Config.TASK_COMPLETE (by decide)

/-- Claim C4 counterexample: The claim states that exit code `0` occurs
exactly when zero tasks failed *and the task-search step succeeded*.
The code refutes the "exactly": in `envSearchDown` the search raises a
`WorkfrontAPIError`, `find_tasks_for_upload` swallows it and returns an
empty list, and `main` exits `0` although the search did not succeed. -/
theorem c4_counterexample_search_failure :
    main envSearchDown = 0 ∧
    envSearchDown.search = CallResult.raise Exn.workfrontAPIError :=
  ⟨rfl, rfl⟩

/-- Claim C4 amended: The exit code of `main()` is: `1` when
configuration validation fails; `130` when a `KeyboardInterrupt`
reaches the top level; `1` when any other unhandled exception reaches
the top level; and for a run whose preamble succeeds and whose search
outcome is handled (a search that fails with a modelled API error is
treated as nothing-to-do), `0` when there is nothing to process and
otherwise `0` iff zero tasks failed and `1` iff at least one task
failed. -/
theorem c4_amended_exit_codes (env : MainEnv) :
    (env.configValid = false → main env = 1) ∧
    (env.configValid = true → mainBody env = Except.error Exn.keyboardInterrupt →
        main env = 130) ∧
    (∀ e, env.configValid = true → mainBody env = Except.error e →
        e ≠ Exn.keyboardInterrupt → main env = 1) ∧
    (env.configValid = true → env.servicesInit = CallResult.ok () →
        env.auth = CallResult.ok () →
        ∀ kept, find_tasks_for_upload env.search = Except.ok kept →
          ((kept = [] → main env = 0) ∧
           (∀ stats, kept ≠ [] →
              (process_tasks kept env.taskEnvs).1 = Except.ok stats →
              main env = if stats.failed_tasks > 0 then 1 else 0))) := by
  refine ⟨?_, ?_, ?_, ?_⟩
  · intro h
    simp [main, h]
  · intro hcv hb
    simp [main, hcv, hb]
  · intro e hcv hb hne
    simp [main, hcv, hb, hne]
  · intro hcv hinit hauth kept hfind
    constructor
    · intro hkept
      have hbody : mainBody env = Except.ok 0 := by
        simp [mainBody, hinit, hauth, hfind, hkept]
      simp [main, hcv, hbody]
    · intro stats hne2 hproc
      have hkeptne : kept.isEmpty = false := by
        cases kept with
        | nil => exact absurd rfl hne2
        | cons a l => rfl
      have hbody : mainBody env = Except.ok (if stats.failed_tasks > 0 then 1 else 0) := by
        simp [mainBody, hinit, hauth, hfind, hkeptne, hproc]
      simp [main, hcv, hbody]

/-- Witness for the amended C4 at concrete inputs: a nominal run with
an empty search result exits `0`; a completed run over the five-task
fixture (all succeeding) also exits `0`. -/
theorem c4_amended_exit_codes_witness :
    main envNothingToDo = 0 ∧ main envFiveTasks = 0 := by
  constructor
  · exact ((c4_amended_exit_codes envNothingToDo).2.2.2 rfl rfl rfl [] rfl).1 rfl
  · have h := ((c4_amended_exit_codes envFiveTasks).2.2.2 rfl rfl rfl
      (tasksFive.filter (fun t => t.hasDocuments)) rfl).2
      { total_tasks := 3, successful_tasks := 3, failed_tasks := 0, total_documents := 5 }
      (by decide) (by decide)
    simpa using h

end WfToCld
